import Mathlib

/-!
Shallow embedding of `src/static/js/main.js` (StockSage front-end).

The file embeds the two incremental-search widgets (the primary stock
search, `initializeStockSearch`, lines 9-106, and the watchlist search,
`initializeWatchlistSearch`, lines 354-430), the lookup functions
(`searchStocks` lines 109-126, `searchStocksForWatchlist` lines 433-448),
the dropdown renderers (`displaySearchResults` lines 129-164,
`displayWatchlistSearchResults` lines 451-486), selection commit
(`selectStock` lines 192-205, `selectWatchlistStock` lines 489-494),
form submission (`analyzeSelectedStock` lines 208-232), the chart
builders' destroy-before-create discipline (`initializePriceChart`
lines 556-757, `initializeRSIChart` lines 760-861), and the volume-axis
maximum expression (line 718).

Modelling conventions:
* DOM state of one widget is a `WidgetState`: the text in the input box,
  the pending debounce timer (at most one timer is ever pending per
  widget: the short-query branch arms none, and the long-query branch
  always runs clearTimeout before setTimeout), the rendered dropdown
  rows, the dropdown visibility, and the index of the row carrying the
  `active` class, if any.
* Events are user keystrokes and clicks plus `timerFire`, the expiry of
  the pending debounce timer.  Issued network requests to
  `/api/search_stocks` are collected as the list of query strings in
  `Effects.calls`; a page navigation of `window.location.href` is
  `Effects.nav`; a `showAlert` call is `Effects.alert`.
* The asynchronous completion of a fetch is modelled separately by
  `FetchOutcome` (the promise rejecting, or a response with an `ok`
  flag and a parsed JSON body) fed to the lookup functions.
* JavaScript `undefined` read from a missing `data-*` attribute and then
  assigned to `input.value` coerces to the string "undefined"; stored
  into `selectedStockSymbol` it is falsy, which this model represents by
  the (equally falsy) empty string.
* JavaScript numbers standing for volumes are modelled as `Int`;
  `Math.max()` of an empty argument list is `-Infinity`, modelled as
  `(⊥ : WithBot Int)`.
-/

namespace StockSage

/-- JavaScript `String.prototype.trim()`: strips whitespace from both
ends of the string. -/
def jsTrim (s : String) : String :=
  String.mk ((s.data.dropWhile Char.isWhitespace).reverse.dropWhile Char.isWhitespace).reverse

/-- JavaScript `String.prototype.toUpperCase()` (ASCII case mapping, as
relevant to stock symbols). -/
def jsToUpper (s : String) : String :=
  String.mk (s.data.map Char.toUpper)

/-- JavaScript `String.prototype.endsWith(suffix)`. -/
def jsEndsWith (s suffix : String) : Bool :=
  suffix.data.isSuffixOf s.data

/-- The exchange selector (`exchangeSelect`), values `NSE` and `BSE`. -/
inductive Exchange
  | NSE
  | BSE
deriving DecidableEq

/-- One candidate returned by `/api/search_stocks`: the fields of a
suggestion object read by `displaySearchResults` (lines 139-149). -/
structure Suggestion where
  symbol : String
  name : String
  nse_symbol : String
  bse_symbol : String
deriving DecidableEq

/-- One rendered `div.dropdown-item` row.  Every variant carries the
`dropdown-item` class in the generated markup, so keyboard navigation
ranges over all of them.  Only `result` rows carry `data-symbol`,
`data-nse` and `data-bse` attributes (lines 141-144). -/
inductive Row
  | result (symbol nse bse name : String)
  | noStocks
  | loading
  | error
deriving DecidableEq

/-- The DOM- and timer-state of one search widget. -/
structure WidgetState where
  inputValue : String
  timer : Option String
  rows : List Row
  visible : Bool
  active : Option Nat
deriving DecidableEq

/-- A widget before any interaction: empty input, no pending timer,
empty hidden dropdown. -/
def initW : WidgetState :=
  { inputValue := "", timer := none, rows := [], visible := false, active := none }

/-- Global state of the primary search widget: its `WidgetState` plus
the module-level variables `selectedStockSymbol` and `selectedExchange`
(lines 5-6). -/
structure PState where
  w : WidgetState
  selectedStockSymbol : String
  selectedExchange : Exchange
deriving DecidableEq

/-- Page-load initial state: `selectedStockSymbol = ''`,
`selectedExchange = 'NSE'` (lines 5-6). -/
def initP : PState :=
  { w := initW, selectedStockSymbol := "", selectedExchange := Exchange.NSE }

/-- Externally observable actions of one event handler. -/
structure Effects where
  calls : List String
  nav : Option String
  alert : Bool
deriving DecidableEq

/-- No observable action. -/
def noFx : Effects := { calls := [], nav := none, alert := false }

/-- Events a search widget reacts to.  `timerFire` is the expiry of the
pending 300ms debounce timer. -/
inductive Event
  | input (text : String)
  | arrowDown
  | arrowUp
  | enter
  | escape
  | outsideClick
  | timerFire
deriving DecidableEq

/-- `hideSearchDropdown` (lines 240-248): sets `display:none` and
removes the `active` class from every row; the rows themselves remain
in the DOM. -/
def hideSearchDropdown (w : WidgetState) : WidgetState :=
  { w with visible := false, active := none }

/-- `showSearchDropdown` (lines 235-238). -/
def showSearchDropdown (w : WidgetState) : WidgetState :=
  { w with visible := true }

/-- `showSearchLoading` (lines 167-176): replaces the dropdown content
with a single loading row (dropping any `active` class) and shows it. -/
def showSearchLoading (w : WidgetState) : WidgetState :=
  { w with rows := [Row.loading], visible := true, active := none }

/-- `dropdown.querySelector` of the `.dropdown-item.active` row:
the row at the highlighted index, when there is one. -/
def activeRow (w : WidgetState) : Option Row :=
  w.active.bind fun i => w.rows[i]?

/-- `element.dataset.symbol`; reading it from a row without the
attribute yields `undefined`, which the assignment to `input.value`
coerces to the string "undefined". -/
def rowDatasetSymbol : Row → String
  | Row.result s _ _ _ => s
  | _ => "undefined"

/-- `element.dataset.nse`; `undefined` (falsy, modelled "") on rows
without the attribute. -/
def rowDatasetNse : Row → String
  | Row.result _ n _ _ => n
  | _ => ""

/-- `element.dataset.bse`; `undefined` (falsy, modelled "") on rows
without the attribute. -/
def rowDatasetBse : Row → String
  | Row.result _ _ b _ => b
  | _ => ""

/-- `selectStock` (lines 192-205): writes the display symbol into the
input, stores the BSE symbol when the selected exchange is BSE and the
NSE symbol otherwise, and hides the dropdown. -/
def selectStock (symbol nseSymbol bseSymbol : String) (p : PState) : PState :=
  { p with
      w := hideSearchDropdown { p.w with inputValue := symbol },
      selectedStockSymbol :=
        if p.selectedExchange = Exchange.BSE then bseSymbol else nseSymbol }

/-- `analyzeSelectedStock` (lines 208-232): trims and uppercases the
typed text; empty text raises an alert; a truthy `selectedStockSymbol`
wins outright; otherwise an exchange suffix is appended unless the
normalized text already ends in ".NS" or ".BO"; then the page navigates
to `/analyze/<symbol>`. -/
def analyzeSelectedStock (p : PState) : Effects :=
  let symbol := jsToUpper (jsTrim p.w.inputValue)
  if symbol = "" then { calls := [], nav := none, alert := true }
  else
    let symbol :=
      if p.selectedStockSymbol ≠ "" then p.selectedStockSymbol
      else
        if !(jsEndsWith symbol ".NS") && !(jsEndsWith symbol ".BO") then
          if p.selectedExchange = Exchange.BSE then symbol ++ ".BO" else symbol ++ ".NS"
        else symbol
    { calls := [], nav := some ("/analyze/" ++ symbol), alert := false }

/-- `exchangeSelect` change listener (lines 47-51). -/
def exchangeChange (v : Exchange) (p : PState) : PState :=
  { p with selectedExchange := v }

/-- One step of the primary search widget: the `input` listener
(lines 21-36), the `keydown` listener (lines 61-105), the outside-click
listener (lines 53-58), and expiry of the debounce timer, which starts
`searchStocks` (lines 33-35 and 109-113: show the loading row and issue
the fetch). -/
def primaryStep : Event → PState → PState × Effects
  | Event.input t, p =>
    let query := jsTrim t
    if query.length < 2 then
      ({ p with w := hideSearchDropdown { p.w with inputValue := t } }, noFx)
    else
      ({ p with w := { p.w with inputValue := t, timer := some query } }, noFx)
  | Event.arrowDown, p =>
    ({ p with w :=
        match p.w.active with
        | some i =>
          if i + 1 < p.w.rows.length then { p.w with active := some (i + 1) } else p.w
        | none =>
          if 0 < p.w.rows.length then { p.w with active := some 0 } else p.w },
      noFx)
  | Event.arrowUp, p =>
    ({ p with w :=
        match p.w.active with
        | some i =>
          if 0 < i then { p.w with active := some (i - 1) } else p.w
        | none =>
          if 0 < p.w.rows.length then { p.w with active := some (p.w.rows.length - 1) } else p.w },
      noFx)
  | Event.enter, p =>
    match activeRow p.w with
    | some r => (selectStock (rowDatasetSymbol r) (rowDatasetNse r) (rowDatasetBse r) p, noFx)
    | none => (p, analyzeSelectedStock p)
  | Event.escape, p => ({ p with w := hideSearchDropdown p.w }, noFx)
  | Event.outsideClick, p => ({ p with w := hideSearchDropdown p.w }, noFx)
  | Event.timerFire, p =>
    match p.w.timer with
    | some q =>
      ({ p with w := showSearchLoading { p.w with timer := none } }, { noFx with calls := [q] })
    | none => (p, noFx)

/-- Runs a list of events through the primary widget, collecting the
network calls issued along the way. -/
def runP : List Event → PState → PState × List String
  | [], p => (p, [])
  | e :: es, p =>
    let s := primaryStep e p
    let r := runP es s.1
    (r.1, s.2.calls ++ r.2)

/-- `hideWatchlistDropdown` (lines 502-510). -/
def hideWatchlistDropdown (w : WidgetState) : WidgetState :=
  { w with visible := false, active := none }

/-- `showWatchlistDropdown` (lines 497-500). -/
def showWatchlistDropdown (w : WidgetState) : WidgetState :=
  { w with visible := true }

/-- `selectWatchlistStock` (lines 489-494): writes the display symbol
into the watchlist input and hides the dropdown.  No committed-symbol
state exists for this widget. -/
def selectWatchlistStock (symbol : String) (w : WidgetState) : WidgetState :=
  hideWatchlistDropdown { w with inputValue := symbol }

/-- One step of the watchlist search widget: the `input` listener
(lines 362-377), the `keydown` listener (lines 387-429), the
outside-click listener (lines 380-384), and expiry of the debounce
timer, which starts `searchStocksForWatchlist` (lines 374-376 and
433-435: issue the fetch; unlike the primary widget, no loading row is
shown).  On Enter with no highlighted row the handler does nothing
(lines 418-423). -/
def watchStep : Event → WidgetState → WidgetState × Effects
  | Event.input t, w =>
    let query := jsTrim t
    if query.length < 2 then
      (hideWatchlistDropdown { w with inputValue := t }, noFx)
    else
      ({ w with inputValue := t, timer := some query }, noFx)
  | Event.arrowDown, w =>
    ((match w.active with
      | some i =>
        if i + 1 < w.rows.length then { w with active := some (i + 1) } else w
      | none =>
        if 0 < w.rows.length then { w with active := some 0 } else w),
      noFx)
  | Event.arrowUp, w =>
    ((match w.active with
      | some i =>
        if 0 < i then { w with active := some (i - 1) } else w
      | none =>
        if 0 < w.rows.length then { w with active := some (w.rows.length - 1) } else w),
      noFx)
  | Event.enter, w =>
    match activeRow w with
    | some r => (selectWatchlistStock (rowDatasetSymbol r) w, noFx)
    | none => (w, noFx)
  | Event.escape, w => (hideWatchlistDropdown w, noFx)
  | Event.outsideClick, w => (hideWatchlistDropdown w, noFx)
  | Event.timerFire, w =>
    match w.timer with
    | some q => ({ w with timer := none }, { noFx with calls := [q] })
    | none => (w, noFx)

/-- Runs a list of events through the watchlist widget, collecting the
network calls issued along the way. -/
def runW : List Event → WidgetState → WidgetState × List String
  | [], w => (w, [])
  | e :: es, w =>
    let s := watchStep e w
    let r := runW es s.1
    (r.1, s.2.calls ++ r.2)

/-- Outcome of one `fetch` of `/api/search_stocks`: the promise
rejecting (network failure), or a response with its `ok` flag and its
parsed JSON body. -/
inductive FetchOutcome
  | reject
  | response (ok : Bool) (body : List Suggestion)
deriving DecidableEq

/-- `displaySearchResults` (lines 129-164): zero suggestions render the
single informational "No stocks found" row, otherwise one
`div.dropdown-item.search-result` per suggestion carrying its
`data-symbol`, `data-nse` and `data-bse`; the dropdown is shown. -/
def displaySearchResults (suggestions : List Suggestion) : List Row × Bool :=
  if suggestions.length = 0 then ([Row.noStocks], true)
  else
    (suggestions.map fun s => Row.result s.symbol s.nse_symbol s.bse_symbol s.name, true)

/-- The try-block of `searchStocks` (lines 110-121) after the fetch
settles: a rejected fetch propagates as an exception, a non-ok response
throws `Error('Failed to fetch search results')`, and an ok response is
rendered by `displaySearchResults`. -/
def searchStocksTry : FetchOutcome → Except String (List Row × Bool)
  | FetchOutcome.reject => Except.error "fetch rejected"
  | FetchOutcome.response ok body =>
    if ok then Except.ok (displaySearchResults body)
    else Except.error "Failed to fetch search results"

/-- `searchStocks` (lines 109-126) from the fetch outcome on: every
exception of the try-block is caught and rendered by `showSearchError`
(lines 179-189) as a visible error row; nothing escapes to the caller.
Returns the resulting dropdown rows and visibility. -/
def searchStocks (o : FetchOutcome) : List Row × Bool :=
  match searchStocksTry o with
  | Except.ok r => r
  | Except.error _ => ([Row.error], true)

/-- `displayWatchlistSearchResults` (lines 451-486): same rendering as
`displaySearchResults`, targeting `watchlistSearchDropdown`. -/
def displayWatchlistSearchResults (suggestions : List Suggestion) : List Row × Bool :=
  if suggestions.length = 0 then ([Row.noStocks], true)
  else
    (suggestions.map fun s => Row.result s.symbol s.nse_symbol s.bse_symbol s.name, true)

/-- The try-block of `searchStocksForWatchlist` (lines 434-442). -/
def searchStocksForWatchlistTry : FetchOutcome → Except String (List Row × Bool)
  | FetchOutcome.reject => Except.error "fetch rejected"
  | FetchOutcome.response ok body =>
    if ok then Except.ok (displayWatchlistSearchResults body)
    else Except.error "Failed to fetch search results"

/-- `searchStocksForWatchlist` (lines 433-448) from the fetch outcome
on: every exception is caught and rendered by
`showWatchlistSearchError` (lines 513-523) as a visible error row. -/
def searchStocksForWatchlist (o : FetchOutcome) : List Row × Bool :=
  match searchStocksForWatchlistTry o with
  | Except.ok r => r
  | Except.error _ => ([Row.error], true)

/-- State of the chart module (lines 540-541 and the two builders):
which instance each module-level variable holds, and which constructed
instances have not been `destroy()`ed, per canvas.  Instances are
numbered by a construction counter. -/
structure ChartState where
  priceChart : Option Nat
  rsiChart : Option Nat
  livePrice : List Nat
  liveRsi : List Nat
  nextId : Nat
deriving DecidableEq

/-- Page-load chart state: `priceChart = null`, `rsiChart = null`
(lines 540-541), nothing constructed yet. -/
def initCharts : ChartState :=
  { priceChart := none, rsiChart := none, livePrice := [], liveRsi := [], nextId := 0 }

/-- `initializePriceChart` (lines 556-563, 756): an absent canvas or
payload returns early; otherwise the instance held in `priceChart`, if
any, is destroyed, and a newly constructed `Chart` is stored.  `valid`
abstracts the truthiness of `ctx` and `chartData`. -/
def initializePriceChart (valid : Bool) (s : ChartState) : ChartState :=
  if !valid then s
  else
    let live :=
      match s.priceChart with
      | some c => s.livePrice.erase c
      | none => s.livePrice
    { s with
        priceChart := some s.nextId,
        livePrice := live ++ [s.nextId],
        nextId := s.nextId + 1 }

/-- `initializeRSIChart` (lines 760-767, 860): same discipline on the
`rsiChart` canvas. -/
def initializeRSIChart (valid : Bool) (s : ChartState) : ChartState :=
  if !valid then s
  else
    let live :=
      match s.rsiChart with
      | some c => s.liveRsi.erase c
      | none => s.liveRsi
    { s with
        rsiChart := some s.nextId,
        liveRsi := live ++ [s.nextId],
        nextId := s.nextId + 1 }

/-- One invocation of either chart builder, with the truthiness of its
canvas/payload arguments. -/
inductive ChartOp
  | initPrice (valid : Bool)
  | initRsi (valid : Bool)
deriving DecidableEq

/-- Interleaved invocations of the two builders. -/
def runCharts : List ChartOp → ChartState → ChartState
  | [], s => s
  | ChartOp.initPrice v :: ops, s => runCharts ops (initializePriceChart v s)
  | ChartOp.initRsi v :: ops, s => runCharts ops (initializeRSIChart v s)

/-- `Math.max(...l)` on a list of numbers: `-Infinity` (here `⊥`) when
the list is empty. -/
def jsListMax (l : List Int) : WithBot Int :=
  l.foldr (fun a b => max (a : WithBot Int) b) ⊥

/-- The `max` option of the volume axis `y1` of the price chart
(line 718): `Math.max(...(chartData.prices.volume || [0])) * 4`.
A missing or null `volume` field is `none`; a present array, even an
empty one, is truthy in JavaScript and is used as is. -/
def priceChartVolumeAxisMax (volume : Option (List Int)) : WithBot Int :=
  (jsListMax (volume.getD [0])).map fun v => v * 4

/-- The claim's symbol normalization on submit, written from the claim's
words for comparison with `analyzeSelectedStock`: the uppercased typed
text, with ".NS" appended if the selected exchange is NSE and ".BO" if
it is BSE, unless it already ends in ".NS" or ".BO", in which case it is
used unchanged. -/
def claimSubmitSymbol (typed : String) (ex : Exchange) : String :=
  let u := jsToUpper (jsTrim typed)
  if jsEndsWith u ".NS" || jsEndsWith u ".BO" then u
  else if ex = Exchange.NSE then u ++ ".NS" else u ++ ".BO"

/-- Uppercasing maps only the characters, so it sends exactly the empty
string to the empty string. -/
lemma jsToUpper_eq_empty_iff (s : String) : jsToUpper s = "" ↔ s = "" := by
  obtain ⟨data⟩ := s
  constructor
  · intro h
    have hd : data.map Char.toUpper = [] := by
      have := congrArg String.data h
      simpa [jsToUpper] using this
    have hnil : data = [] := List.map_eq_nil_iff.mp hd
    subst hnil
    rfl
  · intro h
    rw [h]
    rfl

/-- An input event emits no observable effect on the primary widget. -/
lemma primaryStep_input_fx (t : String) (p : PState) :
    (primaryStep (Event.input t) p).2 = noFx := by
  by_cases h : (jsTrim t).length < 2 <;> simp [primaryStep, h]

/-- An input event emits no observable effect on the watchlist widget. -/
lemma watchStep_input_fx (t : String) (w : WidgetState) :
    (watchStep (Event.input t) w).2 = noFx := by
  by_cases h : (jsTrim t).length < 2 <;> simp [watchStep, h]

/-- Splitting a primary-widget run at an append of event lists. -/
lemma runP_append (l1 l2 : List Event) (p : PState) :
    runP (l1 ++ l2) p =
      ((runP l2 (runP l1 p).1).1, (runP l1 p).2 ++ (runP l2 (runP l1 p).1).2) := by
  induction l1 generalizing p with
  | nil => simp [runP]
  | cons e es ih => simp [runP, ih]

/-- Splitting a watchlist-widget run at an append of event lists. -/
lemma runW_append (l1 l2 : List Event) (w : WidgetState) :
    runW (l1 ++ l2) w =
      ((runW l2 (runW l1 w).1).1, (runW l1 w).2 ++ (runW l2 (runW l1 w).1).2) := by
  induction l1 generalizing w with
  | nil => simp [runW]
  | cons e es ih => simp [runW, ih]

/-- Input events alone never issue a network call on the primary
widget: only the expiry of the debounce timer does. -/
lemma runP_inputs_calls (qs : List String) (p : PState) :
    (runP (qs.map Event.input) p).2 = [] := by
  induction qs generalizing p with
  | nil => rfl
  | cons q qs ih => simp [runP, primaryStep_input_fx, ih, noFx]

/-- Input events alone never issue a network call on the watchlist
widget. -/
lemma runW_inputs_calls (qs : List String) (w : WidgetState) :
    (runW (qs.map Event.input) w).2 = [] := by
  induction qs generalizing w with
  | nil => rfl
  | cons q qs ih => simp [runW, watchStep_input_fx, ih, noFx]

/-- After a burst of keystrokes whose final text trims to length at
least 2, the primary widget's pending debounce timer holds exactly the
final trimmed query: each long keystroke replaces the timer, and short
keystrokes arm none. -/
lemma runP_inputs_timer :
    ∀ (qs : List String) (q : String) (p : PState),
      qs.getLast? = some q → 2 ≤ (jsTrim q).length →
      (runP (qs.map Event.input) p).1.w.timer = some (jsTrim q)
  | [], q, p, hlast, _ => by simp at hlast
  | [a], q, p, hlast, hlen => by
    have ha : a = q := by simpa using hlast
    subst ha
    have hnl : ¬ (jsTrim a).length < 2 := by omega
    simp [runP, primaryStep, hnl]
  | a :: b :: qs, q, p, hlast, hlen => by
    have hlast' : (b :: qs).getLast? = some q := by
      simpa [List.getLast?_cons_cons] using hlast
    simp only [List.map_cons, runP]
    exact runP_inputs_timer (b :: qs) q _ hlast' hlen

/-- Watchlist analogue of `runP_inputs_timer`. -/
lemma runW_inputs_timer :
    ∀ (qs : List String) (q : String) (w : WidgetState),
      qs.getLast? = some q → 2 ≤ (jsTrim q).length →
      (runW (qs.map Event.input) w).1.timer = some (jsTrim q)
  | [], q, w, hlast, _ => by simp at hlast
  | [a], q, w, hlast, hlen => by
    have ha : a = q := by simpa using hlast
    subst ha
    have hnl : ¬ (jsTrim a).length < 2 := by omega
    simp [runW, watchStep, hnl]
  | a :: b :: qs, q, w, hlast, hlen => by
    have hlast' : (b :: qs).getLast? = some q := by
      simpa [List.getLast?_cons_cons] using hlast
    simp only [List.map_cons, runW]
    exact runW_inputs_timer (b :: qs) q _ hlast' hlen

/-- C1: the claim says that whenever the trimmed input has length < 2 no
network call is ever issued for the widget, including by a debounce
timer armed by an earlier longer query, and that the dropdown is hidden.
The code violates this: the short-query branch of the input listener
(lines 24-27 and 365-368) hides the dropdown but does not run
clearTimeout, so the timer armed by an earlier two-character query still
fires, issues the lookup for the stale query, and (on the primary
widget) re-shows the dropdown as a loading row.  This theorem evaluates
the code on the failing trace: type "ab", edit to "a" within the 300ms
window, let the timer expire. -/
theorem c1_short_query_stale_timer_fires :
    (runP [Event.input "ab", Event.input "a", Event.timerFire] initP).2 = ["ab"] ∧
    (runP [Event.input "ab", Event.input "a", Event.timerFire] initP).1.w.visible = true ∧
    (jsTrim (runP [Event.input "ab", Event.input "a", Event.timerFire] initP).1.w.inputValue).length < 2 ∧
    (runW [Event.input "ab", Event.input "a", Event.timerFire] initW).2 = ["ab"] := by
  decide

/-- C2 (amended): N keystrokes within one 300ms window — modelled as the
input events followed by the single expiry of the pending debounce
timer — issue exactly one network call, whose query is the trimmed text
after the final keystroke, provided that final trimmed text has length
at least 2.  (As stated, the claim fails when the final trimmed text is
shorter: see the counterexample.)  Proved for both widgets. -/
theorem c2_debounce_single_call (qs : List String) (q : String) (p : PState) (w : WidgetState)
    (hlast : qs.getLast? = some q) (hlen : 2 ≤ (jsTrim q).length) :
    (runP (qs.map Event.input ++ [Event.timerFire]) p).2 = [jsTrim q] ∧
    (runW (qs.map Event.input ++ [Event.timerFire]) w).2 = [jsTrim q] := by
  constructor
  · rw [runP_append, runP_inputs_calls]
    have ht := runP_inputs_timer qs q p hlast hlen
    simp [runP, primaryStep, ht]
  · rw [runW_append, runW_inputs_calls]
    have ht := runW_inputs_timer qs q w hlast hlen
    simp [runW, watchStep, ht]

/-- C2 witness: the keystroke burst "TC", "TCS" issues the single call
for "TCS" on both widgets. -/
theorem c2_witness :
    (runP (["TC", "TCS"].map Event.input ++ [Event.timerFire]) initP).2 = [jsTrim "TCS"] ∧
    (runW (["TC", "TCS"].map Event.input ++ [Event.timerFire]) initW).2 = [jsTrim "TCS"] :=
  c2_debounce_single_call ["TC", "TCS"] "TCS" initP initW (by decide) (by decide)

/-- C2 counterexample: a single keystroke whose text trims to "a"
(length 1) issues zero network calls, not exactly one. -/
theorem c2_cex_short_final_query :
    (runP ([Event.input "a"] ++ [Event.timerFire]) initP).2 = [] ∧
    (runW ([Event.input "a"] ++ [Event.timerFire]) initW).2 = [] := by
  decide

/-- C3: with no dropdown selection committed and non-empty typed text,
submission navigates to `/analyze/<SYMBOL>` where SYMBOL is the
normalization described by the claim (uppercased typed text, exchange
suffix appended unless a recognized suffix is already present). -/
theorem c3_submit_normalizes (p : PState)
    (hsel : p.selectedStockSymbol = "")
    (hne : jsTrim p.w.inputValue ≠ "") :
    analyzeSelectedStock p =
      { calls := [],
        nav := some ("/analyze/" ++ claimSubmitSymbol p.w.inputValue p.selectedExchange),
        alert := false } := by
  have hu : jsToUpper (jsTrim p.w.inputValue) ≠ "" := by
    intro h
    exact hne ((jsToUpper_eq_empty_iff _).mp h)
  simp only [analyzeSelectedStock, claimSubmitSymbol, hsel, if_neg hu]
  have hns : ¬ ("" : String) ≠ "" := by simp
  rw [if_neg hns]
  cases hA : jsEndsWith (jsToUpper (jsTrim p.w.inputValue)) ".NS" <;>
    cases hB : jsEndsWith (jsToUpper (jsTrim p.w.inputValue)) ".BO" <;>
      cases hex : p.selectedExchange <;>
        simp [hA, hB, hex]

/-- C3 witness: the claim's three concrete examples.  Submitting "TCS"
under NSE navigates to /analyze/TCS.NS, under BSE to /analyze/TCS.BO,
and "TCS.NS" under BSE keeps its suffix. -/
theorem c3_witness :
    analyzeSelectedStock
        ⟨⟨"TCS", none, [], false, none⟩, "", Exchange.NSE⟩ =
      { calls := [], nav := some "/analyze/TCS.NS", alert := false } ∧
    analyzeSelectedStock
        ⟨⟨"TCS", none, [], false, none⟩, "", Exchange.BSE⟩ =
      { calls := [], nav := some "/analyze/TCS.BO", alert := false } ∧
    analyzeSelectedStock
        ⟨⟨"TCS.NS", none, [], false, none⟩, "", Exchange.BSE⟩ =
      { calls := [], nav := some "/analyze/TCS.NS", alert := false } :=
  ⟨(c3_submit_normalizes _ rfl (by decide)).trans (by decide),
   (c3_submit_normalizes _ rfl (by decide)).trans (by decide),
   (c3_submit_normalizes _ rfl (by decide)).trans (by decide)⟩

/-- C4 (amended): on input, ArrowDown, ArrowUp, Escape, outside click,
and Enter with a highlighted row, the two widgets transform their
widget-visible state identically and emit the same effects.  The claim
fails on Enter with no highlighted row (primary submits the form,
watchlist does nothing — see the counterexample); and on a selection
commit the primary widget additionally writes the module-level committed
symbol, which the watchlist widget has no analogue of. -/
theorem c4_widgets_agree_off_enter (e : Event) (p : PState)
    (ht : e ≠ Event.timerFire)
    (he : e = Event.enter → (activeRow p.w).isSome = true) :
    (primaryStep e p).1.w = (watchStep e p.w).1 ∧
    (primaryStep e p).2 = (watchStep e p.w).2 := by
  cases e with
  | input t =>
    by_cases h : (jsTrim t).length < 2 <;>
      simp [primaryStep, watchStep, h, hideSearchDropdown, hideWatchlistDropdown]
  | arrowDown =>
    cases ha : p.w.active with
    | none =>
      by_cases h : 0 < p.w.rows.length <;> simp [primaryStep, watchStep, ha, h]
    | some i =>
      by_cases h : i + 1 < p.w.rows.length <;> simp [primaryStep, watchStep, ha, h]
  | arrowUp =>
    cases ha : p.w.active with
    | none =>
      by_cases h : 0 < p.w.rows.length <;> simp [primaryStep, watchStep, ha, h]
    | some i =>
      by_cases h : 0 < i <;> simp [primaryStep, watchStep, ha, h]
  | enter =>
    obtain ⟨r, hr⟩ := Option.isSome_iff_exists.mp (he rfl)
    simp [primaryStep, watchStep, hr, selectStock, selectWatchlistStock,
      hideSearchDropdown, hideWatchlistDropdown]
  | escape =>
    simp [primaryStep, watchStep, hideSearchDropdown, hideWatchlistDropdown]
  | outsideClick =>
    simp [primaryStep, watchStep, hideSearchDropdown, hideWatchlistDropdown]
  | timerFire => exact absurd rfl ht

/-- C4 witness: ArrowDown from the initial state acts identically on
both widgets. -/
theorem c4_witness :
    (primaryStep Event.arrowDown initP).1.w = (watchStep Event.arrowDown initP.w).1 ∧
    (primaryStep Event.arrowDown initP).2 = (watchStep Event.arrowDown initP.w).2 :=
  c4_widgets_agree_off_enter Event.arrowDown initP (by decide) (by decide)

/-- C4 counterexample: Enter with no highlighted row and non-empty
input "TCS" submits the form on the primary widget (navigating to
/analyze/TCS.NS) but is a no-op on the watchlist widget, so the two
widgets do not perform the same actions on identical event sequences. -/
theorem c4_cex_enter_no_highlight :
    (primaryStep Event.enter ⟨⟨"TCS", none, [], false, none⟩, "", Exchange.NSE⟩).2 =
      { calls := [], nav := some "/analyze/TCS.NS", alert := false } ∧
    (watchStep Event.enter ⟨"TCS", none, [], false, none⟩).2 = noFx ∧
    (watchStep Event.enter ⟨"TCS", none, [], false, none⟩).1 = ⟨"TCS", none, [], false, none⟩ ∧
    (primaryStep Event.enter ⟨⟨"TCS", none, [], false, none⟩, "", Exchange.NSE⟩).2 ≠
      (watchStep Event.enter ⟨"TCS", none, [], false, none⟩).2 := by
  decide

/-- C5: Enter on a highlighted result row runs `selectStock` on that
row's data; the committed symbol becomes the row's BSE symbol exactly
when the selected exchange is BSE and its NSE symbol when it is NSE;
the visible input text becomes the row's display symbol and the
dropdown closes.  (Row click, wired by the rendered markup's onclick,
invokes the same `selectStock`.) -/
theorem c5_select_commits_by_exchange (p : PState) (i : Nat) (sym nse bse nm : String)
    (hact : p.w.active = some i)
    (hrow : p.w.rows[i]? = some (Row.result sym nse bse nm)) :
    primaryStep Event.enter p = (selectStock sym nse bse p, noFx) ∧
    (p.selectedExchange = Exchange.BSE →
      (selectStock sym nse bse p).selectedStockSymbol = bse) ∧
    (p.selectedExchange = Exchange.NSE →
      (selectStock sym nse bse p).selectedStockSymbol = nse) ∧
    (selectStock sym nse bse p).w.inputValue = sym ∧
    (selectStock sym nse bse p).w.visible = false := by
  have hr : activeRow p.w = some (Row.result sym nse bse nm) := by
    simp [activeRow, hact, hrow]
  refine ⟨?_, ?_, ?_, rfl, rfl⟩
  · simp [primaryStep, hr, rowDatasetSymbol, rowDatasetNse, rowDatasetBse]
  · intro h
    simp [selectStock, h]
  · intro h
    simp [selectStock, h]

/-- C5 witness: selecting the single highlighted TCS row under NSE
commits TCS.NS and writes TCS into the input. -/
theorem c5_witness :
    primaryStep Event.enter
        ⟨⟨"tc", none, [Row.result "TCS" "TCS.NS" "TCS.BO" "Tata"], true, some 0⟩, "",
          Exchange.NSE⟩ =
      (selectStock "TCS" "TCS.NS" "TCS.BO"
        ⟨⟨"tc", none, [Row.result "TCS" "TCS.NS" "TCS.BO" "Tata"], true, some 0⟩, "",
          Exchange.NSE⟩, noFx) ∧
    (selectStock "TCS" "TCS.NS" "TCS.BO"
        ⟨⟨"tc", none, [Row.result "TCS" "TCS.NS" "TCS.BO" "Tata"], true, some 0⟩, "",
          Exchange.NSE⟩).selectedStockSymbol = "TCS.NS" :=
  ⟨(c5_select_commits_by_exchange
      ⟨⟨"tc", none, [Row.result "TCS" "TCS.NS" "TCS.BO" "Tata"], true, some 0⟩, "",
        Exchange.NSE⟩ 0 "TCS" "TCS.NS" "TCS.BO" "Tata" rfl rfl).1,
   (c5_select_commits_by_exchange
      ⟨⟨"tc", none, [Row.result "TCS" "TCS.NS" "TCS.BO" "Tata"], true, some 0⟩, "",
        Exchange.NSE⟩ 0 "TCS" "TCS.NS" "TCS.BO" "Tata" rfl rfl).2.2.1 rfl⟩

/-- C6: for every fetch outcome the lookup renders a visible dropdown
state and returns it (`searchStocks` and `searchStocksForWatchlist` are
total functions of the outcome: the catch block absorbs every exception
of the try-block, so nothing propagates to the caller and no page-level
error is raised).  A rejected fetch or a non-2xx response renders the
error row; a successful response with zero suggestions renders the
informational "No stocks found" row. -/
theorem c6_lookup_fails_open (o : FetchOutcome) :
    (searchStocks o).2 = true ∧ (searchStocksForWatchlist o).2 = true ∧
    (o = FetchOutcome.reject →
      (searchStocks o).1 = [Row.error] ∧
      (searchStocksForWatchlist o).1 = [Row.error]) ∧
    (∀ body, o = FetchOutcome.response false body →
      (searchStocks o).1 = [Row.error] ∧
      (searchStocksForWatchlist o).1 = [Row.error]) ∧
    (o = FetchOutcome.response true [] →
      (searchStocks o).1 = [Row.noStocks] ∧
      (searchStocksForWatchlist o).1 = [Row.noStocks]) := by
  rcases o with _ | ⟨ok, body⟩
  · simp [searchStocks, searchStocksForWatchlist, searchStocksTry,
      searchStocksForWatchlistTry]
  · cases ok <;> rcases body with _ | ⟨s, rest⟩ <;>
      simp [searchStocks, searchStocksForWatchlist, searchStocksTry,
        searchStocksForWatchlistTry, displaySearchResults, displayWatchlistSearchResults]

/-- C6 witness: a rejected fetch renders the visible error row on both
widgets. -/
theorem c6_witness :
    (searchStocks FetchOutcome.reject).1 = [Row.error] ∧
    (searchStocks FetchOutcome.reject).2 = true ∧
    (searchStocksForWatchlist FetchOutcome.reject).1 = [Row.error] :=
  ⟨((c6_lookup_fails_open FetchOutcome.reject).2.2.1 rfl).1,
   (c6_lookup_fails_open FetchOutcome.reject).1,
   ((c6_lookup_fails_open FetchOutcome.reject).2.2.1 rfl).2⟩

/-- Invariant of the chart module: the undestroyed instances of each
canvas are exactly the instance held by the corresponding module-level
variable. -/
def chartsInv (s : ChartState) : Prop :=
  s.livePrice = s.priceChart.toList ∧ s.liveRsi = s.rsiChart.toList

/-- The invariant holds on page load. -/
lemma chartsInv_init : chartsInv initCharts :=
  ⟨rfl, rfl⟩

/-- `initializePriceChart` preserves the invariant: it either returns
early, or destroys exactly the held instance before constructing the
new one. -/
lemma chartsInv_price (v : Bool) (s : ChartState) (h : chartsInv s) :
    chartsInv (initializePriceChart v s) := by
  obtain ⟨h1, h2⟩ := h
  cases v with
  | false => simpa [initializePriceChart] using ⟨h1, h2⟩
  | true =>
    rcases hc : s.priceChart with _ | c <;>
      constructor <;>
        simp [initializePriceChart, hc, h1, h2]

/-- `initializeRSIChart` preserves the invariant. -/
lemma chartsInv_rsi (v : Bool) (s : ChartState) (h : chartsInv s) :
    chartsInv (initializeRSIChart v s) := by
  obtain ⟨h1, h2⟩ := h
  cases v with
  | false => simpa [initializeRSIChart] using ⟨h1, h2⟩
  | true =>
    rcases hc : s.rsiChart with _ | c <;>
      constructor <;>
        simp [initializeRSIChart, hc, h1, h2]

/-- Any interleaving of builder invocations preserves the invariant. -/
lemma chartsInv_run (ops : List ChartOp) (s : ChartState) (h : chartsInv s) :
    chartsInv (runCharts ops s) := by
  induction ops generalizing s with
  | nil => simpa [runCharts] using h
  | cons op ops ih =>
    cases op with
    | initPrice v => exact ih _ (chartsInv_price v s h)
    | initRsi v => exact ih _ (chartsInv_rsi v s h)

/-- C7: after any sequence of price-chart and RSI-chart builder
invocations from page load, at most one undestroyed chart instance
exists per canvas: each builder destroys the instance held for its
canvas before constructing a replacement. -/
theorem c7_at_most_one_live_chart (ops : List ChartOp) :
    (runCharts ops initCharts).livePrice.length ≤ 1 ∧
    (runCharts ops initCharts).liveRsi.length ≤ 1 := by
  obtain ⟨h1, h2⟩ := chartsInv_run ops initCharts chartsInv_init
  constructor
  · rw [h1]
    cases (runCharts ops initCharts).priceChart <;> simp
  · rw [h2]
    cases (runCharts ops initCharts).rsiChart <;> simp

/-- The fold computing `Math.max` of a list agrees with `List.maximum`
(both are `⊥`, JavaScript's `-Infinity`, on the empty list). -/
lemma jsListMax_eq_maximum (l : List Int) : jsListMax l = l.maximum := by
  induction l with
  | nil => simp [jsListMax, List.maximum_nil]
  | cons a l ih =>
    rw [List.maximum_cons, ← ih]
    rfl

/-- C8 (amended): the configured maximum of the volume axis is 4 times
the maximum of the volume sequence when that sequence is present and
non-empty, and 0 when the volume field is absent; but when the field is
present with an empty sequence the configured maximum is `-Infinity`
(`Math.max` of no arguments, times 4), because the `|| [0]` fallback
does not trigger on a truthy empty array. -/
theorem c8_volume_axis_max :
    priceChartVolumeAxisMax none = ((0 : Int) : WithBot Int) ∧
    (∀ (l : List Int) (m : Int), l.maximum = (m : WithBot Int) →
      priceChartVolumeAxisMax (some l) = ((4 * m : Int) : WithBot Int)) ∧
    priceChartVolumeAxisMax (some []) = ⊥ := by
  refine ⟨by decide, ?_, by decide⟩
  intro l m hm
  unfold priceChartVolumeAxisMax
  rw [Option.getD_some, jsListMax_eq_maximum, hm, WithBot.map_coe, Int.mul_comm]

/-- C8 witness: volume series [3, 1, 2] has maximum 3 and yields a
configured axis maximum of 12. -/
theorem c8_witness :
    priceChartVolumeAxisMax (some [3, 1, 2]) = ((12 : Int) : WithBot Int) ∧
    ([3, 1, 2] : List Int).maximum = ((3 : Int) : WithBot Int) :=
  ⟨(c8_volume_axis_max.2.1 [3, 1, 2] 3 (by decide)).trans (by decide), by decide⟩

/-- C8 counterexample: a payload whose volume field is a present but
empty array is accepted by the builder, and the configured axis maximum
is `-Infinity` (`⊥`), which is not 4 times any value of the sequence
and in particular not 0; the `|| [0]` fallback applies only to an
absent field. -/
theorem c8_cex_empty_volume :
    priceChartVolumeAxisMax (some []) = (⊥ : WithBot Int) ∧
    priceChartVolumeAxisMax (some []) ≠ ((0 : Int) : WithBot Int) ∧
    priceChartVolumeAxisMax none = ((0 : Int) : WithBot Int) := by
  decide

/-- C9: for a non-empty suggestion list, both renderers emit exactly one
row per suggestion, and the row at each index carries that suggestion's
display symbol, NSE symbol and BSE symbol. -/
theorem c9_row_per_suggestion (suggestions : List Suggestion)
    (h : suggestions ≠ []) :
    (displaySearchResults suggestions).1.length = suggestions.length ∧
    (displayWatchlistSearchResults suggestions).1.length = suggestions.length ∧
    (∀ i : Nat, (displaySearchResults suggestions).1[i]? =
      (suggestions[i]?).map fun s => Row.result s.symbol s.nse_symbol s.bse_symbol s.name) ∧
    (∀ i : Nat, (displayWatchlistSearchResults suggestions).1[i]? =
      (suggestions[i]?).map fun s => Row.result s.symbol s.nse_symbol s.bse_symbol s.name) := by
  have hlen : ¬ suggestions.length = 0 := by
    simpa [List.length_eq_zero] using h
  unfold displaySearchResults displayWatchlistSearchResults
  rw [if_neg hlen]
  refine ⟨by simp, by simp, ?_, ?_⟩ <;> intro i <;> simp [List.getElem?_map]

/-- C9 witness: a single-suggestion response renders one row with that
suggestion's three symbols. -/
theorem c9_witness :
    (displaySearchResults [⟨"TCS", "Tata", "TCS.NS", "TCS.BO"⟩]).1.length = 1 ∧
    (displaySearchResults [⟨"TCS", "Tata", "TCS.NS", "TCS.BO"⟩]).1[0]? =
      some (Row.result "TCS" "TCS.NS" "TCS.BO" "Tata") :=
  ⟨(c9_row_per_suggestion [⟨"TCS", "Tata", "TCS.NS", "TCS.BO"⟩] (by decide)).1.trans rfl,
   ((c9_row_per_suggestion [⟨"TCS", "Tata", "TCS.NS", "TCS.BO"⟩] (by decide)).2.2.1 0).trans
     (by decide)⟩

/-- C10 (amended): editing the input text never modifies the committed
`selectedStockSymbol`, and once a dropdown selection has committed a
NON-EMPTY symbol, every later submission with non-empty input navigates
to that stored symbol regardless of the typed text.  (As stated the
claim fails when the committed exchange symbol is the empty string,
which is falsy, so submission falls back to the typed text: see the
counterexample.) -/
theorem c10_selection_overrides_typing :
    (∀ (t : String) (p : PState),
      (primaryStep (Event.input t) p).1.selectedStockSymbol = p.selectedStockSymbol) ∧
    (∀ p : PState, p.selectedStockSymbol ≠ "" → jsTrim p.w.inputValue ≠ "" →
      analyzeSelectedStock p =
        { calls := [], nav := some ("/analyze/" ++ p.selectedStockSymbol),
          alert := false }) := by
  constructor
  · intro t p
    by_cases h : (jsTrim t).length < 2 <;>
      simp [primaryStep, h, hideSearchDropdown]
  · intro p h1 h2
    have hu : jsToUpper (jsTrim p.w.inputValue) ≠ "" := by
      intro h
      exact h2 ((jsToUpper_eq_empty_iff _).mp h)
    simp only [analyzeSelectedStock, if_neg hu, if_pos h1]

/-- C10 witness: typing preserves the committed symbol, and with
committed symbol TCS.NS and typed text INFY, submission navigates to
the committed symbol. -/
theorem c10_witness :
    (primaryStep (Event.input "X") initP).1.selectedStockSymbol = "" ∧
    analyzeSelectedStock ⟨⟨"INFY", none, [], false, none⟩, "TCS.NS", Exchange.NSE⟩ =
      { calls := [], nav := some ("/analyze/" ++ "TCS.NS"), alert := false } :=
  ⟨c10_selection_overrides_typing.1 "X" initP,
   c10_selection_overrides_typing.2
     ⟨⟨"INFY", none, [], false, none⟩, "TCS.NS", Exchange.NSE⟩ (by decide) (by decide)⟩

/-- C10 counterexample: selecting a dropdown row whose NSE symbol is the
empty string (under exchange NSE) commits the falsy empty symbol; a
later submission then navigates according to the typed text — TCS gives
/analyze/TCS.NS and INFY gives /analyze/INFY.NS — not to the stored
symbol, so the claim's "navigates to that stored symbol regardless of
what the user subsequently typed" fails. -/
theorem c10_cex_empty_committed_symbol :
    (analyzeSelectedStock
        ((primaryStep (Event.input "TCS") (selectStock "ACME" "" "" initP)).1)).nav =
      some "/analyze/TCS.NS" ∧
    (analyzeSelectedStock
        ((primaryStep (Event.input "INFY") (selectStock "ACME" "" "" initP)).1)).nav =
      some "/analyze/INFY.NS" ∧
    ((primaryStep (Event.input "TCS") (selectStock "ACME" "" "" initP)).1).selectedStockSymbol =
      "" := by
  decide

end StockSage
